import Mathlib

/-!
Verification development for the DMTT data-treatment pipeline
(`src/data_processing.py`, `src/file_handler.py`, `src/workers/file_loader.py`,
`src/gui/main_window.py`).

Cells of a dataframe are modelled as a tagged value `Cell` (text, number, or
absent/NaN); a dataframe is a list of named, dtyped columns.  Numbers are
modelled as `Rat` (the decimal fragment of Python floats used by the data).
Python string helpers (`str.strip`, the regex `\s+` collapse, `str.lower`,
`str.replace`) are embedded over `List Char` with the ASCII whitespace set;
`pd.to_numeric` is embedded as a sign/digits/fraction decimal parser (the
exponent, `inf` and underscore forms are not modelled; `"nan"` parses to the
missing value in pandas, which is observably the same as a parse failure
here, so both map to `Cell.absent`).
-/

/-- Dtype of a pandas column: `object` (text) or a numeric dtype
(`float64`/`int64`, the result of `pd.to_numeric`). -/
inductive Dtype where
  | obj
  | numeric
deriving DecidableEq, Repr

/-- One cell of a dataframe: a text value, a numeric value, or the missing
value (`None`/`NaN`). -/
inductive Cell where
  | text (s : String)
  | num (q : Rat)
  | absent
deriving DecidableEq, Repr

/-- A dataframe column: its header (of header type `α`, since pandas column
labels need not be strings), its dtype, and its cells top to bottom. -/
structure Col (α : Type) where
  name : α
  dtype : Dtype
  cells : List Cell
deriving DecidableEq, Repr

/-- A dataframe whose column labels are strings (the usual case after
loading). -/
abbrev Df := List (Col String)

/-- A Python value that can appear as a pandas column label in this code
base: a string, an integer (pandas `RangeIndex` positional labels), or
`None`. -/
inductive PyVal where
  | str (s : String)
  | int (n : Int)
  | none
deriving DecidableEq, Repr

/-- A dataframe whose column labels are arbitrary Python values, as
`fix_columns` receives them. -/
abbrev RawDf := List (Col PyVal)

/-- Python truthiness of a column label (`if c` in `fix_columns`): `None`,
`""` and `0` are falsy. -/
def PyVal.truthy : PyVal → Bool
  | .str s => !s.isEmpty
  | .int n => decide (n ≠ 0)
  | .none => false

/-- Whether a label is a Python `str` (`isinstance(h, str)`). -/
def PyVal.isStr : PyVal → Bool
  | .str _ => true
  | _ => false

/-- Python `str()` of a column label. -/
def PyVal.pyStr : PyVal → String
  | .str s => s
  | .int n => toString n
  | .none => "None"

/-- ASCII whitespace, the characters matched by Python `str.strip` and by
the regex class `\s` (space, tab, newline, carriage return, vertical tab,
form feed).  Unicode whitespace is not modelled; the claims use ASCII. -/
def isWs (c : Char) : Bool :=
  c = ' ' || c = '\t' || c = '\n' || c = '\r' || c.toNat = 11 || c.toNat = 12

/-- Python `str.strip()`: drop leading and trailing whitespace. -/
def pyStrip (l : List Char) : List Char :=
  ((l.dropWhile isWs).reverse.dropWhile isWs).reverse

/-- Helper for the regex substitution `\s+ -> " "`: `sawWs` records whether
the previous character was part of a whitespace run already emitted. -/
def collapseGo : Bool → List Char → List Char
  | _, [] => []
  | sawWs, c :: rest =>
    if isWs c then
      if sawWs then collapseGo true rest else ' ' :: collapseGo true rest
    else c :: collapseGo false rest

/-- The pandas `.str.replace(r"\s+", " ", regex=True)` step: every maximal
run of whitespace becomes a single space. -/
def collapseWs (l : List Char) : List Char := collapseGo false l

/-- Python `str.lower()` (ASCII case mapping). -/
def pyLower (l : List Char) : List Char := l.map Char.toLower

/-- `s.lower()` on a string. -/
def pyLowerStr (s : String) : String := ⟨pyLower s.data⟩

/-- `.str.replace(",", ".")`: the comma-as-decimal-separator substitution
(single-character replace). -/
def replaceCommaDot (l : List Char) : List Char :=
  l.map (fun c => if c = ',' then '.' else c)

/-- Decimal digit value of a character, if it is a digit. -/
def digitVal (c : Char) : Option Nat :=
  if '0' ≤ c ∧ c ≤ '9' then some (c.toNat - 48) else Option.none

/-- Split a maximal prefix of decimal digits off a character list. -/
def takeDigits : List Char → (List Nat × List Char)
  | [] => ([], [])
  | c :: rest =>
    match digitVal c with
    | some d => let p := takeDigits rest; (d :: p.1, p.2)
    | Option.none => ([], c :: rest)

/-- Value of a digit list read most-significant first. -/
def natOfDigits (ds : List Nat) : Nat := ds.foldl (fun a d => a * 10 + d) 0

/-- The float-literal fragment of `pd.to_numeric` on one string: optional
surrounding whitespace, optional sign, digits with at most one decimal
point, at least one digit overall; the value of `sign i.f` is the
rational `sign * (i * 10^len(f) + f) / 10^len(f)`, built with `mkRat`.
Exponents, `inf` and digit underscores are not modelled (no claim
exercises them); `"nan"` yields `none`, which is observably identical to
pandas parsing it to the missing value. -/
def parseNumChars (l0 : List Char) : Option Rat :=
  let l1 := pyStrip l0
  let sl : Int × List Char :=
    match l1 with
    | '-' :: r => (-1, r)
    | '+' :: r => (1, r)
    | _ => (1, l1)
  let ip := takeDigits sl.2
  match ip.2 with
  | [] =>
    if ip.1.isEmpty then Option.none
    else some (mkRat (sl.1 * (natOfDigits ip.1 : Int)) 1)
  | '.' :: r =>
    let fp := takeDigits r
    if fp.2.isEmpty && !(ip.1.isEmpty && fp.1.isEmpty) then
      some (mkRat
        (sl.1 * ((natOfDigits ip.1 * 10 ^ fp.1.length + natOfDigits fp.1 : Nat) : Int))
        (10 ^ fp.1.length))
    else Option.none
  | _ => Option.none

/-- Python `str()` of a cell, as `.astype(str)` applies it: a text cell is
itself, the missing value prints as `"nan"` (the `NaN` form; the pipeline's
missing values are pandas `NaN`), and the float repr of a numeric cell is
abstracted (no claim evaluates `str()` on a numeric cell). -/
def strOfCell : Cell → String
  | .text s => s
  | .num q => toString q.num
  | .absent => "nan"

/-!  `normalize_dataframe` (`src/data_processing.py:60-87`).

The text-canonicalization branch runs inside `for col in df_clean.columns`
on every `object`-dtype column: `.astype(str).str.strip()
.str.replace(r"\s+", " ", regex=True).str.lower()`.  The `try` block with
`pd.to_numeric(df_clean[col].astype(str).str.replace(",", "."),
errors="coerce")` is written at the indentation level of the `for`
statement, so it executes once, after the loop, with `col` bound to the
last column label.  On a dataframe with zero columns `col` is unbound and
the resulting `NameError` is swallowed by `except Exception: pass`.  When
the last label names several columns (a duplicate-label frame)
`df_clean[col]` is a DataFrame, `.str` raises, and the `except` swallows
it, so no coercion happens; with a unique last label exactly that column
is replaced by the coerced, numeric-dtype series. -/

/-- One pass of the pandas chain `.astype(str).str.strip()
.str.replace(r"\s+", " ", regex=True).str.lower()` on one cell. -/
def canonText (c : Cell) : Cell :=
  .text ⟨pyLower (collapseWs (pyStrip (strOfCell c).data))⟩

/-- The per-column body of the loop in `normalize_dataframe`: object
columns get canonicalized cell-wise, other dtypes are untouched. -/
def canonCol (col : Col String) : Col String :=
  if col.dtype = .obj then { col with cells := col.cells.map canonText } else col

/-- `pd.to_numeric(.astype(str).str.replace(",", "."), errors="coerce")`
on one cell: stringify, substitute comma by dot, parse; a parse failure is
the missing value. -/
def coerceCell (c : Cell) : Cell :=
  match parseNumChars (replaceCommaDot (strOfCell c).data) with
  | some q => .num q
  | Option.none => .absent

/-- The post-loop numeric coercion applied to one column. -/
def coerceColumn (col : Col String) : Col String :=
  { col with dtype := .numeric, cells := col.cells.map coerceCell }

/-- `normalize_dataframe`: canonicalize every object column, then coerce
only the column named by the loop variable's final value, i.e. the last
column label (see the block comment above for the zero-column and
duplicate-label cases). -/
def normalize_dataframe (df : Df) : Df :=
  let cleaned := df.map canonCol
  match (cleaned.map (fun c => c.name)).getLast? with
  | Option.none => cleaned
  | some nm =>
    if (cleaned.filter (fun c => decide (c.name = nm))).length = 1 then
      cleaned.map (fun c => if c.name = nm then coerceColumn c else c)
    else cleaned

/-!  `fix_columns` (`src/data_processing.py:90-106`). -/

/-- The filter `c and c.lower() != "none"` applied to one column label.
For a truthy non-string label, `.lower()` raises `AttributeError`, which
`fix_columns` does not catch. -/
def headerKeep (v : PyVal) : Except String Bool :=
  if v.truthy then
    match v with
    | .str s => .ok (decide (pyLowerStr s ≠ "none"))
    | _ => .error "AttributeError: object has no attribute lower"
  else .ok false

/-- The list comprehension
`[c for c in df_fixed.columns if c and c.lower() != "none"]`, applied to
whole columns, evaluated left to right with the first raised
`AttributeError` propagating. -/
def filterKept : RawDf → Except String RawDf
  | [] => .ok []
  | c :: rest =>
    match headerKeep c.name with
    | .error e => .error e
    | .ok k =>
      match filterKept rest with
      | .error e => .error e
      | .ok r => .ok (if k then c :: r else r)

/-- The rename step
`df_fixed.columns = [str(c).replace("\n", " ").strip() for c in ...]`. -/
def fixName (v : PyVal) : String :=
  ⟨pyStrip (v.pyStr.data.map (fun c => if c = '\n' then ' ' else c))⟩

/-- `df_fixed.loc[:, ~df_fixed.columns.duplicated()]`: keep the first
column of each label, drop later duplicates entirely. -/
def dedupFirst : List (Col String) → List String → List (Col String)
  | [], _ => []
  | c :: rest, seen =>
    if seen.contains c.name then dedupFirst rest seen
    else c :: dedupFirst rest (c.name :: seen)

/-- `fix_columns`: drop falsy/"none" labels (raising on truthy non-string
labels), rewrite label text, then drop duplicate labels keeping the first
occurrence. -/
def fix_columns (df : RawDf) : Except String Df :=
  (filterKept df).map (fun kept =>
    dedupFirst (kept.map (fun c =>
      { name := fixName c.name, dtype := c.dtype, cells := c.cells })) [])

/-!  `compare_columns` (`src/file_handler.py:138-172`) and
`select_columns` (`src/data_processing.py:45-53`). -/

/-- `sorted(...)` on a list of column names (Python sorts strings
lexicographically by code point, as the `LinearOrder` on `String` does). -/
def sortS (l : List String) : List String :=
  List.insertionSort (fun a b : String => a ≤ b) l

/-- `set(a) - set(b)` as a list (order irrelevant: it is sorted next). -/
def setDiff (a b : List String) : List String :=
  (a.filter (fun c => decide (c ∉ b))).dedup

/-- `set(a) & set(b)` as a list. -/
def setInter (a b : List String) : List String :=
  (a.filter (fun c => decide (c ∈ b))).dedup

/-- The `details` dict built by `compare_columns`. -/
structure CmpDetails where
  only_in_df1 : List String
  only_in_df2 : List String
  common : List String
  cols1 : List String
  cols2 : List String
deriving DecidableEq, Repr

/-- The `(is_equal, details)` pair returned by `compare_columns`. -/
structure CmpResult where
  is_equal : Bool
  details : CmpDetails
deriving DecidableEq, Repr

/-- `compare_columns`, on the two column-label lists of the dataframes
(the function reads nothing else of them; the `None`-dataframe guard is
outside the modelled data path). -/
def compare_columns (cols1 cols2 : List String) : CmpResult :=
  let only1 := sortS (setDiff cols1 cols2)
  let only2 := sortS (setDiff cols2 cols1)
  let comm := sortS (setInter cols1 cols2)
  { is_equal := only1.isEmpty && only2.isEmpty,
    details :=
      { only_in_df1 := only1, only_in_df2 := only2, common := comm,
        cols1 := cols1, cols2 := cols2 } }

/-- The column labels of a dataframe (`df.columns`). -/
def colsOf (df : Df) : List String := df.map (fun c => c.name)

/-- `select_columns`: collect the requested labels absent from the frame;
raise naming them if any, else return `df[selected_columns].copy()` (a new
frame of the requested columns in the requested order; for the unique
labels produced upstream `df[c]` is the first — only — column labelled
`c`).  The `.copy()` is implicit in the embedding's purity.
`pickCol` is the per-label projection `df[c]`; its fallback arm is
unreachable when `c` is present. -/
def pickCol (df : Df) (c : String) : Col String :=
  match df.find? (fun col => decide (col.name = c)) with
  | some col => col
  | Option.none => { name := c, dtype := .obj, cells := [] }

def select_columns (df : Df) (sel : List String) : Except (List String) Df :=
  let missing := sel.filter (fun c => decide (c ∉ colsOf df))
  if missing.isEmpty then .ok (sel.map (pickCol df))
  else .error missing

/-!  The PDF branch of `load_file` (`src/file_handler.py:86-128`).

`pdfplumber` hands back, per page, `extract_tables()` — a list of tables,
each a list of rows, each row a list of cells that are `str` or `None` —
and `extract_text()`, a `str` or `None`.  The branch is modelled as a
function of that extracted content. -/

/-- One PDF page's extracted content: its structural tables (rows of
`str`-or-`None` cells) and its plain text (`None` when the page has no
extractable text). -/
structure Page where
  tables : List (List (List (Option String)))
  text : Option String
deriving DecidableEq, Repr

/-- Width `pd.DataFrame(t)` gives a ragged table: the longest row. -/
def tableWidth (t : List (List (Option String))) : Nat :=
  t.foldl (fun a r => max a r.length) 0

/-- Pad one row to the frame width with missing values, as
`pd.DataFrame` rectangularizes ragged input. -/
def padRow (w : Nat) (r : List (Option String)) : List (Option String) :=
  r ++ List.replicate (w - r.length) Option.none

/-- A per-page table after the header-promotion block: its column labels
(strings when the first row was promoted, pandas positional integer
labels otherwise) and its data rows. -/
structure PdfTable where
  header : List PyVal
  rows : List (List (Option String))
deriving DecidableEq, Repr

/-- The per-table block of the PDF branch
(`src/file_handler.py:101-111`): build `pd.DataFrame(t)`; on an empty
table `df_page.iloc[0]` raises `IndexError`, caught by the surrounding
`except`, and the table is skipped (`none`).  Otherwise, if every cell of
the (padded) first row satisfies `isinstance(h, str)` — i.e. is present,
since extracted cells are `str` or `None` — that row becomes the header
and is dropped from the data; else the frame keeps its positional integer
labels and the first row stays as data. -/
def processTable (t : List (List (Option String))) : Option PdfTable :=
  match t with
  | [] => Option.none
  | r0 :: rest =>
    let w := tableWidth (r0 :: rest)
    let hdr := padRow w r0
    if hdr.all (fun c => c.isSome) then
      some { header := hdr.map (fun c => PyVal.str (c.getD "")),
             rows := rest.map (padRow w) }
    else
      some { header := (List.range w).map (fun i => PyVal.int i),
             rows := (r0 :: rest).map (padRow w) }

/-- The label cleanup `t.columns = [str(c).strip() for c in t.columns]`
applied before concatenation (`src/file_handler.py:121`). -/
def pdfColNames (t : PdfTable) : List String :=
  t.header.map (fun v => (⟨pyStrip v.pyStr.data⟩ : String))

/-- Value of one concatenated row at one union column: the row's cell at
the first position carrying that label, missing when the table lacks the
label. -/
def tableCell (names : List String) (row : List (Option String)) (nm : String) :
    Option String :=
  match names.findIdx? (fun c => c == nm) with
  | some i => row.getD i Option.none
  | Option.none => Option.none

/-- `pd.concat(norm_tables, ignore_index=True, sort=False).astype(str)`:
union of column labels in first-seen order; rows stacked in table order;
cells stringified.  `astype(str)` renders a missing object cell as the
string `"None"` or `"nan"` depending on its representation — modelled
uniformly as `"nan"`; no claim depends on this branch's cell values. -/
def concatTables (ts : List PdfTable) : Df :=
  let names := (ts.map pdfColNames).foldl
    (fun acc cs => acc ++ cs.filter (fun c => decide (c ∉ acc))) []
  names.map (fun nm =>
    { name := nm, dtype := .obj,
      cells := ts.flatMap (fun t =>
        t.rows.map (fun r => Cell.text ((tableCell (pdfColNames t) r nm).getD "nan"))) })

/-- The PDF branch of `load_file`, as a function of the pages' extracted
content: process every table of every page in order; collect
`page_text if page_text else ""` for every page; if any table survived,
return the concatenation, else return `pd.DataFrame({'text': texts})` —
the one-column fallback frame, built unconditionally, even when every
page's text is empty. -/
def load_pdf (pages : List Page) : Df :=
  let tabs := pages.flatMap (fun p => p.tables.filterMap processTable)
  let texts := pages.map (fun p => p.text.getD "")
  if tabs.isEmpty then
    [{ name := "text", dtype := .obj, cells := texts.map Cell.text }]
  else concatTables tabs

/-!  `LoadWorker.run` (`src/workers/file_loader.py:23-54`).

The run is a pure function of what the job observed: the value of the
`_canceled` flag at each of the two points where the code reads it, the
flag's value after `fix_columns` (which the code never reads — there is
no third check), and the outcome of `load_file` (file I/O abstracted as a
parameter).  The output is the ordered list of Qt signals emitted.
`normalize_dataframe` never raises (its internal `try` swallows even the
zero-column `NameError`), and `fix_columns`' possible `AttributeError` is
caught by the `except` that emits `error`.  On the `except` path the
method returns without reaching `finished.emit()`. -/

/-- A Qt signal emission of `WorkerSignals`. -/
inductive Event where
  | finished
  | error (msg : String)
  | result (df : Df)
deriving DecidableEq

/-- `LoadWorker.run`, as the list of signals emitted in order. -/
def LoadWorker.run (cancel0 cancel1 cancelAfterRepair : Bool)
    (loadResult : Except String RawDf) : List Event :=
  if cancel0 then [.finished]
  else
    match loadResult with
    | .error e => [.error e]
    | .ok raw =>
      if cancel1 then [.finished]
      else
        match fix_columns raw with
        | .error e => [.error e]
        | .ok df => [.result (normalize_dataframe df), .finished]

/-!  The merge coordinator (`src/gui/main_window.py:234-353`): the slice
of `MainWindow` state that `_on_load_result`,
`_validate_and_merge_dataframes` and `_merge_all_dataframes` read and
write, and those three methods.  In every state these methods produce,
`loaded_files` and `all_dataframes` have equal length, so
`loaded_files[i]` for `i` enumerating `all_dataframes[1:]` is modelled by
zipping. -/

/-- The merge-relevant `MainWindow` state: the displayed frame
(`current_df`, also what `table_view` shows), the accepted file names,
and the accepted dataframes. -/
structure MergeState where
  current_df : Option Df
  loaded_files : List String
  all_dataframes : List Df
deriving DecidableEq

/-- Row count of a frame (all columns of a well-formed frame have it). -/
def nrows (df : Df) : Nat :=
  match df with
  | [] => 0
  | c :: _ => c.cells.length

/-- `pd.concat(self.all_dataframes, ignore_index=True)`: union of labels
in first-seen order, rows stacked in list order, frames lacking a label
contributing missing cells (dtype of the merged columns abstracted as
object; no claim reads it). -/
def dfConcat (dfs : List Df) : Df :=
  let names := (dfs.map colsOf).foldl
    (fun acc cs => acc ++ cs.filter (fun c => decide (c ∉ acc))) []
  names.map (fun nm =>
    { name := nm, dtype := .obj,
      cells := dfs.flatMap (fun d =>
        match d.find? (fun c => decide (c.name = nm)) with
        | some c => c.cells
        | Option.none => List.replicate (nrows d) Cell.absent) })

/-- `_merge_all_dataframes`: concatenate the accepted frames into the
displayed view (no-op on an empty list). -/
def merge_all (st : MergeState) : MergeState :=
  if st.all_dataframes.isEmpty then st
  else { st with current_df := some (dfConcat st.all_dataframes) }

/-- One iteration of the removal loop: `idx =
self.loaded_files.index(item['file'])` — the FIRST position whose file
name matches — then `pop(idx)` from both lists.  (`list.index` cannot
miss here: every removed name is in the list.) -/
def removeByName (st : MergeState) (file : String) : MergeState :=
  let idx := st.loaded_files.findIdx (fun f => f == file)
  { st with loaded_files := st.loaded_files.eraseIdx idx,
            all_dataframes := st.all_dataframes.eraseIdx idx }

/-- `_validate_and_merge_dataframes`: compare every later frame against
the first; if any are incompatible, warn and remove them by file name
(first-match index), leaving the displayed view untouched; else merge. -/
def validate_and_merge (st : MergeState) : MergeState :=
  if st.all_dataframes.length < 2 then st
  else
    match st.all_dataframes with
    | [] => st
    | base :: rest =>
      let pairs := (st.loaded_files.drop 1).zip rest
      let incompatible := (pairs.filter (fun p =>
        !(compare_columns (colsOf base) (colsOf p.2)).is_equal)).map (fun p => p.1)
      if incompatible.isEmpty then merge_all st
      else incompatible.foldl removeByName st

/-- `_on_load_result`: append the delivery to both lists; a first frame
is displayed directly, later ones go through validation and merge. -/
def on_load_result (st : MergeState) (filename : String) (df : Df) : MergeState :=
  let st1 : MergeState :=
    { st with loaded_files := st.loaded_files ++ [filename],
              all_dataframes := st.all_dataframes ++ [df] }
  if st1.all_dataframes.length = 1 then { st1 with current_df := some df }
  else validate_and_merge st1

/-- Whether an `Except` computation returned normally ("never fails"). -/
def exceptOk {ε α : Type} : Except ε α → Bool
  | .ok _ => true
  | .error _ => false

/-!  Concrete inputs used by the evaluation theorems below. -/

/-- Two object columns; `"1,5"` in column `a` (non-last) is a
comma-decimal numeric text, `"2"` in column `b` (last) a plain one. -/
def dfC1 : Df :=
  [{ name := "a", dtype := .obj, cells := [.text "1,5"] },
   { name := "b", dtype := .obj, cells := [.text "2"] }]

/-- An absent cell in the non-last text column `a`. -/
def dfC8 : Df :=
  [{ name := "a", dtype := .obj, cells := [.absent] },
   { name := "b", dtype := .obj, cells := [.text "x"] }]

/-- A raw frame with the truthy integer label `1` (a pandas positional
label). -/
def rawC5 : RawDf := [{ name := PyVal.int 1, dtype := .obj, cells := [] }]

/-- A well-formed raw frame for worker traces: one string-labelled
column. -/
def rawOk : RawDf := [{ name := PyVal.str "a", dtype := .obj, cells := [.text "v"] }]

/-- A document page with no structural table and no extractable text. -/
def pageEmpty : Page := { tables := [], text := Option.none }

/-- A document page with no structural table but with extractable text. -/
def pageText : Page := { tables := [], text := some "hello" }

/-- A raw frame with string and falsy labels only, including the falsy
positional label `0`: the safe domain of `fix_columns`. -/
def rawC5ok : RawDf :=
  [{ name := PyVal.str "Name", dtype := .obj, cells := [] },
   { name := PyVal.none, dtype := .obj, cells := [] },
   { name := PyVal.int 0, dtype := .obj, cells := [] }]

/-- A document table whose first row is numeric-looking text. -/
def tblNumericHeader : List (List (Option String)) :=
  [[some "1", some "2"], [some "x", some "y"]]

/-- One-column frames for the merge trace: `dfA`/`dfA2` share schema
`["x"]`, `dfB` has schema `["y"]`. -/
def dfA : Df := [{ name := "x", dtype := .obj, cells := [.text "a1"] }]

def dfA2 : Df := [{ name := "x", dtype := .obj, cells := [.text "a2"] }]

def dfB : Df := [{ name := "y", dtype := .obj, cells := [.text "b1"] }]

/-- The empty merge session (`MainWindow.__init__` / `clear_all`). -/
def mergeS0 : MergeState :=
  { current_df := Option.none, loaded_files := [], all_dataframes := [] }

/-- Merge state after two compatible deliveries, both named `f.csv`. -/
def mergeS2 : MergeState :=
  on_load_result (on_load_result mergeS0 "f.csv" dfA) "f.csv" dfA2

/-- Merge state after the third, schema-incompatible delivery, also named
`f.csv`. -/
def mergeS3 : MergeState := on_load_result mergeS2 "f.csv" dfB

/-!  Theorems.  Shared helper lemmas first, then one theorem per claim
(with its counterexample or witness where required). -/

theorem canonCol_name (c : Col String) : (canonCol c).name = c.name := by
  unfold canonCol; split <;> rfl

theorem sortS_mem {x : String} {l : List String} : x ∈ sortS l ↔ x ∈ l :=
  (List.perm_insertionSort _ l).mem_iff

theorem sortS_sorted (l : List String) :
    List.Sorted (fun a b : String => a ≤ b) (sortS l) :=
  List.sorted_insertionSort _ l

theorem sortS_eq_of_mem_iff {a b : List String} (ha : a.Nodup) (hb : b.Nodup)
    (h : ∀ x, x ∈ a ↔ x ∈ b) : sortS a = sortS b := by
  refine List.eq_of_perm_of_sorted ?_ (sortS_sorted a) (sortS_sorted b)
  have h1 : (sortS a).Perm b :=
    (List.perm_insertionSort _ a).trans ((List.perm_ext_iff_of_nodup ha hb).2 h)
  exact h1.trans (List.perm_insertionSort _ b).symm

theorem mem_setDiff {x : String} {a b : List String} :
    x ∈ setDiff a b ↔ x ∈ a ∧ x ∉ b := by
  simp [setDiff, List.mem_dedup, List.mem_filter]

theorem mem_setInter {x : String} {a b : List String} :
    x ∈ setInter a b ↔ x ∈ a ∧ x ∈ b := by
  simp [setInter, List.mem_dedup, List.mem_filter]

/-- C9: `compare_columns` returns three pairwise disjoint, alphabetically
sorted name lists; swapping the arguments swaps the two "only" lists and
keeps the common list; and `is_equal` is true exactly when both "only"
lists are empty. -/
theorem c9_schema_comparator (cols1 cols2 : List String) :
    ((compare_columns cols1 cols2).details.only_in_df1.Disjoint
        (compare_columns cols1 cols2).details.only_in_df2
      ∧ (compare_columns cols1 cols2).details.only_in_df1.Disjoint
        (compare_columns cols1 cols2).details.common
      ∧ (compare_columns cols1 cols2).details.only_in_df2.Disjoint
        (compare_columns cols1 cols2).details.common)
    ∧ (List.Sorted (fun a b : String => a ≤ b)
        (compare_columns cols1 cols2).details.only_in_df1
      ∧ List.Sorted (fun a b : String => a ≤ b)
        (compare_columns cols1 cols2).details.only_in_df2
      ∧ List.Sorted (fun a b : String => a ≤ b)
        (compare_columns cols1 cols2).details.common)
    ∧ ((compare_columns cols2 cols1).details.only_in_df1
        = (compare_columns cols1 cols2).details.only_in_df2
      ∧ (compare_columns cols2 cols1).details.only_in_df2
        = (compare_columns cols1 cols2).details.only_in_df1
      ∧ (compare_columns cols2 cols1).details.common
        = (compare_columns cols1 cols2).details.common)
    ∧ ((compare_columns cols1 cols2).is_equal = true ↔
        (compare_columns cols1 cols2).details.only_in_df1 = []
        ∧ (compare_columns cols1 cols2).details.only_in_df2 = []) := by
  refine ⟨⟨?_, ?_, ?_⟩, ⟨sortS_sorted _, sortS_sorted _, sortS_sorted _⟩,
    ⟨rfl, rfl, ?_⟩, ?_⟩
  · intro x hx hx'
    rw [show (compare_columns cols1 cols2).details.only_in_df1
        = sortS (setDiff cols1 cols2) from rfl, sortS_mem, mem_setDiff] at hx
    rw [show (compare_columns cols1 cols2).details.only_in_df2
        = sortS (setDiff cols2 cols1) from rfl, sortS_mem, mem_setDiff] at hx'
    exact hx.2 hx'.1
  · intro x hx hx'
    rw [show (compare_columns cols1 cols2).details.only_in_df1
        = sortS (setDiff cols1 cols2) from rfl, sortS_mem, mem_setDiff] at hx
    rw [show (compare_columns cols1 cols2).details.common
        = sortS (setInter cols1 cols2) from rfl, sortS_mem, mem_setInter] at hx'
    exact hx.2 hx'.2
  · intro x hx hx'
    rw [show (compare_columns cols1 cols2).details.only_in_df2
        = sortS (setDiff cols2 cols1) from rfl, sortS_mem, mem_setDiff] at hx
    rw [show (compare_columns cols1 cols2).details.common
        = sortS (setInter cols1 cols2) from rfl, sortS_mem, mem_setInter] at hx'
    exact hx.2 hx'.1
  · show sortS (setInter cols2 cols1) = sortS (setInter cols1 cols2)
    refine sortS_eq_of_mem_iff (List.nodup_dedup _) (List.nodup_dedup _) ?_
    intro x
    rw [mem_setInter, mem_setInter]
    exact and_comm
  · show ((sortS (setDiff cols1 cols2)).isEmpty
        && (sortS (setDiff cols2 cols1)).isEmpty) = true ↔ _
    rw [Bool.and_eq_true, List.isEmpty_iff, List.isEmpty_iff]
    exact Iff.rfl

/-- C10: `select_columns` either succeeds, in which case every requested
label was present, the output carries exactly the requested labels in the
requested order, and every output column is a column of the input frame;
or it fails, in which case the reported list is nonempty and consists
exactly of the requested labels missing from the frame, in request
order. -/
theorem pickCol_name (df : Df) (c : String) : (pickCol df c).name = c := by
  unfold pickCol
  cases hf : df.find? (fun col => decide (col.name = c)) with
  | none => rfl
  | some col =>
    have := List.find?_some hf
    simpa using this

theorem c10_select_columns (df : Df) (sel : List String) :
    match select_columns df sel with
    | .ok out => (∀ c ∈ sel, c ∈ colsOf df) ∧ colsOf out = sel
        ∧ ∀ col ∈ out, col ∈ df
    | .error m => m ≠ [] ∧ m.Sublist sel
        ∧ ∀ c, c ∈ m ↔ c ∈ sel ∧ c ∉ colsOf df := by
  by_cases h : (List.filter (fun c => decide (c ∉ colsOf df)) sel).isEmpty
  · have hok : select_columns df sel = .ok (sel.map (pickCol df)) := by
      unfold select_columns
      simp only [h, if_true]
    rw [hok]
    have hall : ∀ c ∈ sel, c ∈ colsOf df := by
      rw [List.isEmpty_iff, List.filter_eq_nil_iff] at h
      intro c hc
      simpa using h c hc
    refine ⟨hall, ?_, ?_⟩
    · show List.map (fun c => c.name) (sel.map (pickCol df)) = sel
      rw [List.map_map]
      have : (fun c => (pickCol df c).name) = fun c : String => c := by
        funext c
        exact pickCol_name df c
      show sel.map (fun c => (pickCol df c).name) = sel
      rw [this, List.map_id']
    · intro col hcol
      rw [List.mem_map] at hcol
      obtain ⟨c, hc, hpick⟩ := hcol
      have hsome : (df.find? (fun col => decide (col.name = c))).isSome := by
        rw [List.find?_isSome]
        obtain ⟨col', hcol', hname⟩ := List.mem_map.1 (hall c hc)
        exact ⟨col', hcol', by simpa using hname⟩
      obtain ⟨col', hfind⟩ := Option.isSome_iff_exists.1 hsome
      have : pickCol df c = col' := by
        unfold pickCol
        rw [hfind]
      rw [← hpick, this]
      exact List.mem_of_find?_eq_some hfind
  · have herr : select_columns df sel
        = .error (List.filter (fun c => decide (c ∉ colsOf df)) sel) := by
      unfold select_columns
      simp only [h, if_false]
      rfl
    rw [herr]
    refine ⟨by simpa [List.isEmpty_iff] using h, List.filter_sublist _, ?_⟩
    intro c
    simp [List.mem_filter]

/-- C1 (code evaluation): the numeric coercion reaches only the last
column.  On `dfC1` the comma-decimal text `"1,5"` of column `a` stays
text, while column `b` — the loop variable's final value — is coerced to
the number 2: the `try` block around `pd.to_numeric` is dedented out of
the per-column loop and runs once, not per column. -/
theorem c1_last_column_only_eval :
    normalize_dataframe dfC1 =
      [{ name := "a", dtype := .obj, cells := [.text "1,5"] },
       { name := "b", dtype := .numeric, cells := [.num 2] }] := by
  decide

/-- C2 (counterexample): a failed job emits exactly one error and NO
terminal finished notification — the `except` branch returns before
`finished.emit()`. -/
theorem c2_counterexample :
    LoadWorker.run false false false (.error "boom") = [.error "boom"]
    ∧ Event.finished ∉ LoadWorker.run false false false (.error "boom") := by
  decide

/-- C2 (amended): every completed run has one of three shapes — success:
exactly one dataset followed by the finished notification; cancellation:
the finished notification alone; failure: exactly one error description
and no finished notification. -/
theorem c2_amended_run_shapes (c0 c1 c2 : Bool) (load : Except String RawDf) :
    (∃ d, LoadWorker.run c0 c1 c2 load = [.result d, .finished])
    ∨ LoadWorker.run c0 c1 c2 load = [.finished]
    ∨ (∃ m, LoadWorker.run c0 c1 c2 load = [.error m]
        ∧ Event.finished ∉ LoadWorker.run c0 c1 c2 load) := by
  cases c0 with
  | true => exact Or.inr (Or.inl (by simp [LoadWorker.run]))
  | false =>
    cases load with
    | error e =>
      exact Or.inr (Or.inr ⟨e, by simp [LoadWorker.run], by simp [LoadWorker.run]⟩)
    | ok raw =>
      cases c1 with
      | true => exact Or.inr (Or.inl (by simp [LoadWorker.run]))
      | false =>
        cases hf : fix_columns raw with
        | error e =>
          exact Or.inr (Or.inr ⟨e, by simp [LoadWorker.run, hf],
            by simp [LoadWorker.run, hf]⟩)
        | ok df =>
          exact Or.inl ⟨normalize_dataframe df, by simp [LoadWorker.run, hf]⟩

/-- C3 (counterexample): a job whose cancellation flag is set after
repair (third argument) still delivers its dataset and finished — the
code has no checkpoint between repair and normalization. -/
theorem c3_counterexample :
    LoadWorker.run false false true (.ok rawOk) =
      [.result [{ name := "a", dtype := .numeric, cells := [.absent] }], .finished] := by
  decide

/-- C3 (amended): the cancellation flag is consulted at exactly two
checkpoints — before starting and immediately after extraction — and at
either one a set flag makes the job emit the finished notification only;
the flag's value after repair is never read, so it cannot alter the run
(in particular a job cancelled after repair still delivers its
dataset). -/
theorem c3_amended_two_checkpoints (c0 c1 c2 : Bool)
    (load : Except String RawDf) (raw : RawDf) :
    LoadWorker.run true c1 c2 load = [.finished]
    ∧ LoadWorker.run false true c2 (.ok raw) = [.finished]
    ∧ LoadWorker.run c0 c1 true load = LoadWorker.run c0 c1 false load := by
  refine ⟨by simp [LoadWorker.run], by simp [LoadWorker.run], rfl⟩

/-- C4 (counterexample): a document whose single page yields neither a
structural table nor any extractable text produces a dataset — the
one-column text fallback with one empty-string row — not a
`NoExtractableContent` failure (no such error exists in the code). -/
theorem c4_counterexample :
    load_pdf [pageEmpty] =
      [{ name := "text", dtype := .obj, cells := [.text ""] }] := by
  decide

/-- C4 (amended): whenever no page contributes a surviving structural
table, the PDF branch returns the one-column "text" fallback frame — one
row per page, the empty string standing in for a page without extractable
text — and never fails; in particular a document with no tables and no
text on any page still yields this (degenerate) dataset. -/
theorem c4_amended_fallback (pages : List Page)
    (h : ∀ p ∈ pages, p.tables.filterMap processTable = []) :
    load_pdf pages =
      [{ name := "text", dtype := .obj,
         cells := pages.map (fun p => Cell.text (p.text.getD "")) }] := by
  unfold load_pdf
  have hnil : pages.flatMap (fun p => p.tables.filterMap processTable) = [] :=
    List.flatMap_eq_nil_iff.2 h
  rw [hnil]
  simp [List.map_map]

/-- C4 (witness): the amended statement at a two-page document with no
tables, one page textless and one with text. -/
theorem c4_witness :
    load_pdf [pageEmpty, pageText] =
      [{ name := "text", dtype := .obj,
         cells := [pageEmpty, pageText].map (fun p => Cell.text (p.text.getD "")) }] :=
  c4_amended_fallback [pageEmpty, pageText] (by decide)

/-- C5 (counterexample): `fix_columns` on a frame whose only column label
is the truthy integer `1` — a pandas positional label — raises an
`AttributeError` (`(1).lower()`) instead of returning a repaired table. -/
theorem c5_counterexample :
    fix_columns rawC5 = .error "AttributeError: object has no attribute lower" := rfl

theorem headerKeep_ok (v : PyVal)
    (h : v.isStr = true ∨ v.truthy = false) :
    ∃ b, headerKeep v = .ok b := by
  unfold headerKeep
  rcases h with hs | hf
  · cases v with
    | str s =>
      by_cases ht : PyVal.truthy (PyVal.str s) = true
      · rw [if_pos ht]
        exact ⟨_, rfl⟩
      · rw [if_neg ht]
        exact ⟨false, rfl⟩
    | int n => exact absurd hs (by simp [PyVal.isStr])
    | none => exact absurd hs (by simp [PyVal.isStr])
  · rw [if_neg (by simp [hf])]
    exact ⟨false, rfl⟩

/-- C5 (amended): `fix_columns` never fails on a frame in which every
column label is a Python string or is falsy (`None`, `""`, `0`): it
returns a repaired table — possibly with zero columns, which is valid
output.  Only a truthy non-string label (such as a nonzero positional
integer) makes it raise. -/
theorem c5_amended_never_fails_on_str_headers (df : RawDf)
    (h : ∀ col ∈ df, col.name.isStr = true ∨ col.name.truthy = false) :
    exceptOk (fix_columns df) = true := by
  have hk : ∃ kept, filterKept df = .ok kept := by
    induction df with
    | nil => exact ⟨[], rfl⟩
    | cons c rest ih =>
      obtain ⟨kept, hkept⟩ := ih (fun col hcol => h col (List.mem_cons_of_mem _ hcol))
      obtain ⟨b, hb⟩ := headerKeep_ok c.name (h c (List.mem_cons_self _ _))
      refine ⟨if b then c :: kept else kept, ?_⟩
      unfold filterKept
      rw [hb, hkept]
  obtain ⟨kept, hkept⟩ := hk
  unfold fix_columns
  rw [hkept]
  rfl

/-- C5 (witness): the amended statement at a frame with a string label, a
`None` label and the falsy positional label `0`. -/
theorem c5_witness : exceptOk (fix_columns rawC5ok) = true :=
  c5_amended_never_fails_on_str_headers rawC5ok (by decide)

/-- C6 (code evaluation): start from the empty session and deliver
`("f.csv", dfA)`, `("f.csv", dfA2)` (both schema `["x"]`, accepted and
merged), then the incompatible `("f.csv", dfB)` (schema `["y"]`).  The
rejection removes the FIRST list entry named `f.csv` — the previously
accepted `dfA` — and leaves the rejected `dfB` in the accepted list; the
merged view alone is unchanged. -/
theorem c6_rejection_eval :
    mergeS2.all_dataframes = [dfA, dfA2]
    ∧ mergeS3.all_dataframes = [dfA2, dfB]
    ∧ mergeS3.loaded_files = ["f.csv", "f.csv"]
    ∧ mergeS3.current_df = mergeS2.current_df := by
  decide

/-- C7 (code evaluation): the header-promotion block promotes a first row
of numeric-looking text cells `["1", "2"]` — the code checks only
`isinstance(h, str)`, never non-numericity, although its own comment says
a numeric first row must not become the header. -/
theorem c7_numeric_header_promoted :
    processTable tblNumericHeader =
      some { header := [PyVal.str "1", PyVal.str "2"],
             rows := [[some "x", some "y"]] } := by
  decide

/-- C8 (counterexample): normalizing `dfC8` turns the absent cell of the
text column `a` into the string `"nan"` — absent cells of text columns do
not remain absent.  (Column `b`, the last column, is numerically coerced
and its unparseable text `"x"` becomes absent.) -/
theorem c8_counterexample :
    normalize_dataframe dfC8 =
      [{ name := "a", dtype := .obj, cells := [.text "nan"] },
       { name := "b", dtype := .numeric, cells := [.absent] }] := by
  decide

theorem filter_name_singleton {l : List (Col String)} {nm : String}
    (hn : (l.map (fun c => c.name)).Nodup) (hm : nm ∈ l.map (fun c => c.name)) :
    (l.filter (fun c => decide (c.name = nm))).length = 1 := by
  induction l with
  | nil => simp at hm
  | cons a t ih =>
    rw [List.map_cons, List.nodup_cons] at hn
    rw [List.map_cons, List.mem_cons] at hm
    by_cases ha : a.name = nm
    · have ht : t.filter (fun c => decide (c.name = nm)) = [] := by
        rw [List.filter_eq_nil_iff]
        intro c hc hcn
        apply hn.1
        rw [List.mem_map]
        have : c.name = nm := by simpa using hcn
        exact ⟨c, hc, this.trans ha.symm⟩
      simp [List.filter_cons, ha, ht]
    · rcases hm with hm1 | hm2
      · exact absurd hm1.symm ha
      · have := ih hn.2 hm2
        simpa [List.filter_cons, ha] using this

/-- C8 (amended): in a header-clean frame (unique labels), the absent
cells of a text (object) column do not stay absent: canonicalization
replaces every cell — absent ones included — by its stringified form, so
an absent cell becomes the string `"nan"`; only in the last column (the
sole target of the trailing numeric coercion) is that `"nan"` mapped back
to the missing value. -/
theorem c8_amended_absent_to_nan (df : Df) (i : Nat) (col : Col String)
    (h1 : (colsOf df).Nodup) (h2 : df[i]? = some col) (h3 : col.dtype = .obj) :
    (i + 1 < df.length →
      (normalize_dataframe df)[i]? =
        some { name := col.name, dtype := .obj, cells := col.cells.map canonText })
    ∧ (i + 1 = df.length →
      (normalize_dataframe df)[i]? =
        some { name := col.name, dtype := .numeric,
               cells := col.cells.map (fun c => coerceCell (canonText c)) })
    ∧ canonText .absent = .text "nan"
    ∧ coerceCell (canonText .absent) = .absent := by
  obtain ⟨hi, hcol⟩ := List.getElem?_eq_some_iff.mp h2
  obtain ⟨cnm, cdt, ccl⟩ := col
  have hcdt : cdt = Dtype.obj := h3
  subst hcdt
  have hfun : (fun c : Col String => (canonCol c).name)
      = fun c : Col String => c.name := by
    funext c
    exact canonCol_name c
  have hnames : (df.map canonCol).map (fun c => c.name) = colsOf df := by
    rw [List.map_map]
    show df.map (fun c => (canonCol c).name) = _
    rw [hfun]
    rfl
  have hlen : (colsOf df).length = df.length := List.length_map _ _
  have hm : df.length - 1 < (colsOf df).length := by omega
  have hidx : (colsOf df).length - 1 = df.length - 1 := by omega
  have hlast : ((df.map canonCol).map (fun c => c.name)).getLast? =
      some ((colsOf df)[df.length - 1]) := by
    rw [hnames, List.getLast?_eq_getElem?, hidx]
    exact List.getElem?_eq_getElem hm
  have hfil : ((df.map canonCol).filter
      (fun c => decide (c.name = (colsOf df)[df.length - 1]))).length = 1 := by
    refine filter_name_singleton (by rw [hnames]; exact h1) ?_
    rw [hnames]
    exact List.getElem_mem hm
  have hia : i < (colsOf df).length := by omega
  have hname_i : cnm = (colsOf df)[i] := by
    show cnm = (df.map (fun c => c.name))[i]
    rw [List.getElem_map, hcol]
  have hbody : normalize_dataframe df =
      (df.map canonCol).map (fun c =>
        if c.name = (colsOf df)[df.length - 1] then coerceColumn c else c) := by
    simp only [normalize_dataframe]
    rw [hlast]
    simp only [hfil, if_pos]
  refine ⟨?_, ?_, by decide, by decide⟩
  · intro hlt
    have hne : cnm ≠ (colsOf df)[df.length - 1] := by
      rw [hname_i]
      intro hcontra
      have heqi := (List.Nodup.getElem_inj_iff h1).mp hcontra
      omega
    rw [hbody, List.getElem?_map, List.getElem?_map, h2]
    simp only [Option.map_some']
    rw [if_neg (by simpa [canonCol_name] using hne)]
    rfl
  · intro heq
    have hieq : i = df.length - 1 := by omega
    subst hieq
    have hnm : cnm = (colsOf df)[df.length - 1] := hname_i
    rw [hbody, List.getElem?_map, List.getElem?_map, h2]
    simp only [Option.map_some']
    rw [if_pos (by simpa [canonCol_name] using hnm)]
    show some (coerceColumn (canonCol { name := cnm, dtype := Dtype.obj, cells := ccl })) = _
    simp [canonCol, coerceColumn, List.map_map, Function.comp]

/-- C8 (witness): the amended statement applied to `dfC8` at its first
(non-last, object) column: the absent cell comes back as the string
`"nan"`. -/
theorem c8_witness :
    (normalize_dataframe dfC8)[0]? =
      some { name := "a", dtype := Dtype.obj, cells := [Cell.text "nan"] } := by
  have h := c8_amended_absent_to_nan dfC8 0
    { name := "a", dtype := .obj, cells := [.absent] }
    (by decide) (by decide) rfl
  have h0 := h.1 (by decide)
  simpa using h0
